import Mathlib

/-!
# Multi-object-search core: shallow embedding and verification

Shallow embedding of the 2D multi-object-search core
(`problems/multi_object_search/models/sensor.py`,
`problems/multi_object_search/models/transition_model.py`,
`problems/multi_object_search/domain/state.py`) and proofs about it.

Modelling conventions:
* Python floats are modelled as real numbers (`ℝ`); grid coordinates as `ℤ`;
  probabilities/epsilons as `ℚ`.
* Python's float modulo `a % b` (sign of divisor, `b > 0` here) is
  `a - b * ⌊a / b⌋`.
* Python's `round` rounds half-to-even while Mathlib's `round` rounds half-up;
  they agree off exact ties, and every concrete input used below is off-tie.
* Raised Python exceptions are modelled with `Except PyError`.
-/

namespace MosCore

/-- Kinds of Python exceptions the embedded code can raise. -/
inductive PyError
  | valueError
  | nameError
  | attributeError
  | typeError
  | keyError
deriving DecidableEq, Repr

/-- Python float modulo with positive divisor: `a % b = a - b * ⌊a / b⌋`. -/
noncomputable def pymod (a b : ℝ) : ℝ := a - b * ⌊a / b⌋

/-- Python `round(x, 2)`: round to two decimal digits. -/
noncomputable def round2 (x : ℝ) : ℝ := ((round (x * 100) : ℤ) : ℝ) / 100

/-! ## Sensor model (`sensor.py`) -/

/-- `euclidean_dist` (sensor.py line 7): Euclidean distance between two 2D
points.  (The source zips the coordinate tuples, so when one argument is a
3-component robot pose only the `x, y` components take part.) -/
noncomputable def euclidean_dist (p q : ℝ × ℝ) : ℝ :=
  Real.sqrt ((p.1 - q.1) ^ 2 + (p.2 - q.2) ^ 2)

/-- `math.atan2 y x`, modelled as the argument of the complex number `x + y·i`
(range `(-π, π]`, as in Python). -/
noncomputable def atan2 (y x : ℝ) : ℝ := Complex.arg ⟨x, y⟩

/-- `Laser2DSensor` configuration (sensor.py lines 40–70).

The constructor in the source cannot actually run: line 61 references the
unbound name `view_angles` and line 65 passes interval endpoints and a float
count to `np.linspace`.  The discretized beam set `_beams` is therefore kept
as an abstract field of rounded bearings here (per the configuration
described in the source comments), rather than being computed. -/
structure Laser2DSensor where
  robot_id : ℕ
  fov : ℝ
  min_range : ℝ
  max_range : ℝ
  angle_increment : ℝ
  occlusion_enabled : Bool
  beams : Set ℝ

/-- `Laser2DSensor.valid_beam` (sensor.py lines 98–103), exactly as written:

`return dist < self.min_range or dist > self.max_range and round(bearing, 2) in self._beams`

Python's `and` binds tighter than `or`, so this is
`dist < min_range ∨ (dist > max_range ∧ round(bearing, 2) ∈ beams)`. -/
def Laser2DSensor.valid_beam (s : Laser2DSensor) (dist bearing : ℝ) : Prop :=
  dist < s.min_range ∨ (s.max_range < dist ∧ round2 bearing ∈ s.beams)

/-- `valid_beam` as its own docstring (and the specification) describe it:
the beam is valid iff its length is within `[min_range, max_range]` and its
rounded bearing is a member of the discretized beam set. -/
def Laser2DSensor.valid_beam_doc (s : Laser2DSensor) (dist bearing : ℝ) : Prop :=
  (s.min_range ≤ dist ∧ dist ≤ s.max_range) ∧ round2 bearing ∈ s.beams

/-- A concrete sensor: the default configuration (`fov=90`, `min_range=1`,
`max_range=5`, beam straight ahead), occlusion disabled. -/
noncomputable def s1 : Laser2DSensor :=
  { robot_id := 7
    fov := Real.pi / 2
    min_range := 1
    max_range := 5
    angle_increment := Real.pi / 36
    occlusion_enabled := false
    beams := {0} }

theorem round2_zero : round2 0 = 0 := by
  simp [round2]

/-- **C1.** The claim states `valid_beam(d, b)` is true iff
`min_range ≤ d ≤ max_range` and the rounded bearing lies in the discretized
beam set.  The code disagrees: because Python's `and` binds tighter than
`or`, `valid_beam` as written is
`d < min_range ∨ (d > max_range ∧ round(b,2) ∈ beams)`.  With the default
configuration (`min_range = 1`, `max_range = 5`) and the straight-ahead beam:
at `d = 3, b = 0` (in range, on a beam) the code returns `False` while the
docstring/claim reading returns `True`, and at `d = 1/2, b = 0` (below
minimum range) the code returns `True` while the docstring/claim reading
returns `False`. -/
theorem C1_valid_beam_precedence_bug :
    ¬ s1.valid_beam 3 0 ∧ s1.valid_beam (1/2) 0 ∧
      s1.valid_beam_doc 3 0 ∧ ¬ s1.valid_beam_doc (1/2) 0 := by
  refine ⟨?_, ?_, ?_, ?_⟩
  · rintro (h | ⟨h, -⟩) <;> norm_num [s1] at h
  · left
    norm_num [s1]
  · exact ⟨⟨by norm_num [s1], by norm_num [s1]⟩, by simp [s1, round2_zero]⟩
  · rintro ⟨⟨h, -⟩, -⟩
    norm_num [s1] at h

/-! ## State types (`domain/state.py`) -/

/-- `ObjectState` (state.py lines 19–29): a static target with attributes
`pose` (grid cell) and `id`, plus its object class. -/
structure ObjectState where
  id : ℕ
  objclass : String
  pose : ℤ × ℤ
deriving DecidableEq

/-- `RobotState` (state.py lines 31–51): attributes `id`, `pose = (x, y, θ)`,
`objects_found` and `camera_direction`.  The source stores `objects_found` as
a tuple but always manipulates it through `set` operations, so it is a
`Finset` here; `camera_direction` is `None` or an action name. -/
structure RobotState where
  id : ℕ
  pose : ℤ × ℤ × ℝ
  objects_found : Finset ℕ
  camera_direction : Option String

/-- An entry of the joint state's `object_states` dictionary: either a static
object's state or the robot's state. -/
inductive EntityState
  | obj (o : ObjectState)
  | robot (r : RobotState)

/-- `MosOOState` (state.py lines 53–68): the joint state, a dictionary from
object id to entity state.  The list keeps Python's dict insertion order,
which the sensor's object loop follows. -/
structure MosOOState where
  object_states : List (ℕ × EntityState)

/-- Dictionary lookup `state.object_states[objid]`. -/
def MosOOState.get (st : MosOOState) (i : ℕ) : Option EntityState :=
  st.object_states.lookup i

/-- The `"pose"` attribute of an entity, truncated to its `(x, y)` part as a
point in the plane.  (`euclidean_dist` zips the tuples, and `point[0]`,
`point[1]` read only the first two components, so for the robot's 3-component
pose only `x, y` take part in the beam geometry.) -/
def entityPoint : EntityState → ℝ × ℝ
  | .obj o => ((o.pose.1 : ℝ), (o.pose.2 : ℝ))
  | .robot r => ((r.pose.1 : ℝ), (r.pose.2.1 : ℝ))

/-! ## Observation synthesis (`sensor.py` lines 105–154) -/

/-- `Laser2DSensor.shoot_beam` (sensor.py lines 90–96): distance and bearing
from the robot pose to a point, the bearing normalized into `[0, 2π)`. -/
noncomputable def Laser2DSensor.shoot_beam (s : Laser2DSensor)
    (robot_pose : ℤ × ℤ × ℝ) (point : ℝ × ℝ) : ℝ × ℝ :=
  let dist := euclidean_dist point ((robot_pose.1 : ℝ), (robot_pose.2.1 : ℝ))
  let bearing := pymod
    (atan2 (point.2 - (robot_pose.2.1 : ℝ)) (point.1 - (robot_pose.1 : ℝ)) - robot_pose.2.2)
    (2 * Real.pi)
  (dist, bearing)

/-- A beam map: Python dict from rounded bearing to `(distance, point)`. -/
def BeamMap : Type := List (ℝ × (ℝ × (ℝ × ℝ)))

/-- A key of the `objposes` dictionary built by `observe`.  In the
no-occlusion branch the key is the object id; in the occlusion branch the
source unpacks a beam-map entry as `d, objid = beam_map[bearing_key]`, but
the entry was stored as `(dist, point)` (sensor.py lines 115/121), so the
key used there is the object's *pose*, not its id. -/
inductive ObsKey
  | id (objid : ℕ)
  | pose (p : ℝ × ℝ)

/-- `MosObservation(objposes)`: the observation returned by `observe`. -/
structure MosObservation where
  objposes : List (ObsKey × (ℤ × ℤ))

/-- `Laser2DSensor._build_beam_map` (sensor.py lines 105–122) with Python's
mutable-default-argument semantics made explicit: `arg` is the `beam_map`
keyword argument (`none` means the call used the default dictionary, whose
current value `D` persists on the function object and is returned as the
possibly-updated default).

The body's first statement, `valid = self.valid_beam((dist, bearing))`
(line 108), calls the two-parameter method `valid_beam` with a single tuple
argument, so every call raises `TypeError` before either dictionary is read
or written. -/
def build_beam_map_st (beam : ℝ × ℝ) (point : ℝ × ℝ)
    (arg : Option BeamMap) (D : BeamMap) : Except PyError (Bool × BeamMap) × BeamMap :=
  (Except.error PyError.typeError, D)

open Classical in
/-- The per-object loop of `observe` in the no-occlusion branch
(sensor.py lines 133–142): each object whose beam is valid is reported at
`(rx + round(d·cos(rth + bearing)), ry + round(d·sin(rth + bearing)))`. -/
noncomputable def observe_no_occl_loop (s : Laser2DSensor) (rp : ℤ × ℤ × ℝ) :
    List (ℕ × EntityState) → List (ObsKey × (ℤ × ℤ))
  | [] => []
  | (objid, e) :: rest =>
      let beam := s.shoot_beam rp (entityPoint e)
      let tail := observe_no_occl_loop s rp rest
      if s.valid_beam beam.1 beam.2 then
        (ObsKey.id objid,
          (rp.1 + round (beam.1 * Real.cos (rp.2.2 + beam.2)),
           rp.2.1 + round (beam.1 * Real.sin (rp.2.2 + beam.2)))) :: tail
      else tail

/-- The per-object loop of `observe` in the occlusion branch (sensor.py
lines 133–135 and 143–144): each object's beam is fed to `_build_beam_map`
with the call-local dictionary passed explicitly as the `beam_map` keyword
argument.  `bm` is that call-local dictionary and `D` the persistent default
dictionary of `_build_beam_map`, threaded through the calls. -/
noncomputable def observe_occl_loop (s : Laser2DSensor) (rp : ℤ × ℤ × ℝ) :
    List (ℕ × EntityState) → BeamMap → BeamMap → Except PyError BeamMap × BeamMap
  | [], bm, D => (Except.ok bm, D)
  | (_objid, e) :: rest, bm, D =>
      let beam := s.shoot_beam rp (entityPoint e)
      match build_beam_map_st beam (entityPoint e) (some bm) D with
      | (Except.error err, D') => (Except.error err, D')
      | (Except.ok (_, bm'), D') => observe_occl_loop s rp rest bm' D'

/-- The emission loop of `observe`'s occlusion branch (sensor.py
lines 146–152): one reported position per surviving beam-map entry.  The
source unpacks the stored `(dist, point)` pair as `d, objid`, so the
dictionary key it writes is the stored point. -/
noncomputable def emit_beam_map (rp : ℤ × ℤ × ℝ) : BeamMap → List (ObsKey × (ℤ × ℤ))
  | [] => []
  | (bearing_key, d, point) :: rest =>
      (ObsKey.pose point,
        (rp.1 + round (d * Real.cos (rp.2.2 + bearing_key)),
         rp.2.1 + round (d * Real.sin (rp.2.2 + bearing_key)))) :: emit_beam_map rp rest

/-- `Laser2DSensor.observe` (sensor.py lines 124–154) with the persistent
default dictionary `D` of `_build_beam_map` threaded explicitly: the result
is the returned observation (or raised exception) paired with the default
dictionary's value after the call.  The call-local `beam_map` starts as the
fresh empty dictionary created on line 132.  (Since `_occlusion_enabled` is
fixed per call, branching on it outside the object loop is equivalent to the
source's per-object branch.) -/
noncomputable def Laser2DSensor.observe_st (s : Laser2DSensor) (robot_pose : ℤ × ℤ × ℝ)
    (env_state : MosOOState) (D : BeamMap) : Except PyError MosObservation × BeamMap :=
  if s.occlusion_enabled then
    match observe_occl_loop s robot_pose env_state.object_states [] D with
    | (Except.error e, D') => (Except.error e, D')
    | (Except.ok bm, D') => (Except.ok ⟨emit_beam_map robot_pose bm⟩, D')
  else
    (Except.ok ⟨observe_no_occl_loop s robot_pose env_state.object_states⟩, D)

/-- `observe` as called by clients (the default dictionary starts empty and,
as proved below, is never touched). -/
noncomputable def Laser2DSensor.observe (s : Laser2DSensor) (robot_pose : ℤ × ℤ × ℝ)
    (env_state : MosOOState) : Except PyError MosObservation :=
  (s.observe_st robot_pose env_state []).1

theorem observe_occl_loop_state (s : Laser2DSensor) (rp : ℤ × ℤ × ℝ)
    (entries : List (ℕ × EntityState)) (bm D D' : BeamMap) :
    (observe_occl_loop s rp entries bm D).2 = D ∧
      (observe_occl_loop s rp entries bm D).1 = (observe_occl_loop s rp entries bm D').1 := by
  cases entries <;> simp [observe_occl_loop, build_beam_map_st]

theorem observe_st_state (s : Laser2DSensor) (rp : ℤ × ℤ × ℝ)
    (st : MosOOState) (D : BeamMap) :
    s.observe_st rp st D = (s.observe rp st, D) := by
  unfold Laser2DSensor.observe Laser2DSensor.observe_st
  by_cases h : s.occlusion_enabled
  · simp only [h, if_true]
    obtain ⟨h2, h1⟩ := observe_occl_loop_state s rp st.object_states [] D ([])
    rcases hE : observe_occl_loop s rp st.object_states [] ([]) with ⟨res', Dout'⟩
    rw [hE] at h1
    rcases hD : observe_occl_loop s rp st.object_states [] D with ⟨res, Dout⟩
    rw [hD] at h1 h2
    simp only at h1 h2
    subst h1
    subst h2
    cases res <;> simp
  · simp [h]

/-- **C9.** `observe` is a pure function of `(robot_pose, joint_state)`: with
the one piece of call-spanning mutable state in the source — the mutable
default `beam_map` dictionary of `_build_beam_map` — threaded explicitly as
`D`, every `observe` call leaves `D` unchanged and its result does not depend
on `D` (the source creates a fresh local dictionary per call and always
passes it explicitly).  Hence for three sequential calls `A, B, A` the third
result equals the first; input states, being values, are not modified. -/
theorem C9_observe_pure (s : Laser2DSensor) (pA pB : ℤ × ℤ × ℝ)
    (stA stB : MosOOState) (D : BeamMap) :
    (s.observe_st pA stA D).2 = D ∧
      (s.observe_st pA stA ((s.observe_st pB stB ((s.observe_st pA stA D).2)).2)).1
        = (s.observe_st pA stA D).1 := by
  simp [observe_st_state]

open Classical in
/-- Python dict read `beam_map[bearing_key]` / `bearing_key in beam_map`. -/
noncomputable def bm_get : BeamMap → ℝ → Option (ℝ × (ℝ × ℝ))
  | [], _ => none
  | (k', v') :: rest, k => if k = k' then some v' else bm_get rest k

open Classical in
/-- Python dict write `beam_map[bearing_key] = (dist, point)`. -/
noncomputable def bm_set : BeamMap → ℝ → ℝ × (ℝ × ℝ) → BeamMap
  | [], k, v => [(k, v)]
  | (k', v') :: rest, k, v =>
      if k = k' then (k', v) :: rest else (k', v') :: bm_set rest k v

/-- The beam-map update logic of `_build_beam_map` (sensor.py lines 109–122),
i.e. the part of the body after the `TypeError`-raising call on line 108: if
no entry exists for the rounded bearing, insert `(dist, point)`; if one
exists, overwrite it only when the new distance is strictly smaller.  Returns
the source's boolean (`True` iff the map was updated) with the new map. -/
noncomputable def beam_map_step (beam_map : BeamMap) (beam : ℝ × ℝ)
    (point : ℝ × ℝ) : Bool × BeamMap :=
  let bearing_key := round2 beam.2
  match bm_get beam_map bearing_key with
  | some (d0, _) =>
      if beam.1 < d0 then (true, bm_set beam_map bearing_key (beam.1, point))
      else (false, beam_map)
  | none => (true, bm_set beam_map bearing_key (beam.1, point))

/-- Two objects straight ahead of a robot at the origin, on the same bearing
at distances 2 and 4. -/
def st4 : MosOOState :=
  ⟨[(1, EntityState.obj ⟨1, "obj", (2, 0)⟩), (2, EntityState.obj ⟨2, "obj", (4, 0)⟩)]⟩

/-- The default sensor with occlusion enabled. -/
noncomputable def s4 : Laser2DSensor := { s1 with occlusion_enabled := true }

/-- **C4.** With occlusion enabled the claim says only the nearer of two
same-bearing objects appears in the Observation, ties keeping the object
processed first.  The code cannot produce this: `_build_beam_map` calls the
two-parameter `valid_beam` with a single tuple argument (line 108), so
`observe` raises `TypeError` on the first object whenever occlusion is
enabled and the state is nonempty — first conjunct, at two objects on the
same bearing with distances `2 < 4`.  The remaining conjuncts evaluate the
update logic that follows the failing line (lines 109–122) and confirm its
tie-break is as claimed: a first hit at distance 2 is inserted; a later hit
at distance 4 is discarded; an exact-distance tie (2) keeps the first entry;
a strictly nearer hit (1) overwrites it. -/
theorem C4_occlusion_nearest_wins :
    s4.observe (0, 0, 0) st4 = Except.error PyError.typeError ∧
      beam_map_step [] (2, 0) (2, 0) = (true, [(round2 0, (2, (2, 0)))]) ∧
      beam_map_step [(round2 0, (2, (2, 0)))] (4, 0) (4, 0)
        = (false, [(round2 0, (2, (2, 0)))]) ∧
      beam_map_step [(round2 0, (2, (2, 0)))] (2, 0) (2, 1)
        = (false, [(round2 0, (2, (2, 0)))]) ∧
      beam_map_step [(round2 0, (2, (2, 0)))] (1, 0) (1, 0)
        = (true, [(round2 0, (1, (1, 0)))]) := by
  refine ⟨rfl, ?_, ?_, ?_, ?_⟩
  · simp [beam_map_step, bm_get, bm_set]
  · simp only [beam_map_step, bm_get, if_pos rfl]
    norm_num
  · simp only [beam_map_step, bm_get, if_pos rfl]
    norm_num
  · simp only [beam_map_step, bm_get, bm_set, if_pos rfl]
    norm_num

/-! ## Actions -/

/-- Modelled from the spec: `domain/action.py` is not under `src/`.  A Motion
action carries scheme `xy` (absolute displacement `(dx, dy)` and a new
heading) or `vw` (odometry: a forward distance and an angle delta), read by
the transition model through `action.scheme` and `action.motion`. -/
inductive Motion
  | xy (dx dy : ℤ) (th : ℝ)
  | vw (forward angle : ℝ)

/-- Modelled from the spec: the action input is a tagged value, one of
`Motion`, `Look{optional_rotation}` (whose `name` attribute records the
looked direction) or `Find`.  Python being dynamically typed, a caller can
pass any other object, which every `isinstance` branch of the robot model
rejects silently; `other` stands for such a value, an instance of none of
the three action classes. -/
inductive Action
  | motion (mv : Motion)
  | look (rot : Option Motion) (name : String)
  | find
  | other

/-! ## Transition models (`transition_model.py`) -/

/-- The candidate-pose computation of `RobotTransitionModel._if_move_by`
(transition_model.py lines 99–111), exactly as written.  For the `vw`
scheme: `rth += angle`, then `rx = int(round(rx + forward*math.cos(rth)))`
and `ry = int(round(ry + forward*math.cos(rth)))` — the source computes
*both* updated coordinates from the cosine of the heading — and finally
`rth = rth % (2*math.pi)`. -/
noncomputable def candidate_pose (p : ℤ × ℤ × ℝ) : Motion → ℤ × ℤ × ℝ
  | .xy dx dy th => (p.1 + dx, p.2.1 + dy, th)
  | .vw forward angle =>
      let rth := p.2.2 + angle
      (round ((p.1 : ℝ) + forward * Real.cos rth),
       round ((p.2.1 : ℝ) + forward * Real.cos rth),
       pymod rth (2 * Real.pi))

/-- The `vw` candidate pose as the claim (and spec §4.4) states it: new
`θ' = (θ + angle) mod 2π`, new `x = round(x + forward·cos θ')`, new
`y = round(y + forward·sin θ')`. -/
noncomputable def candidate_pose_vw_spec (p : ℤ × ℤ × ℝ) (forward angle : ℝ) :
    ℤ × ℤ × ℝ :=
  let th' := pymod (p.2.2 + angle) (2 * Real.pi)
  (round ((p.1 : ℝ) + forward * Real.cos th'),
   round ((p.2.1 : ℝ) + forward * Real.sin th'),
   th')

/-- `in_boundary` (transition_model.py lines 183–193): `0 ≤ x < width`,
`0 ≤ y < length`, and for a 3-component pose the orientation must satisfy
`0 ≤ θ ≤ 2π` (the source returns `False` when `th < 0 or th > 2*math.pi`). -/
def in_boundary (pose : ℤ × ℤ × ℝ) (width length : ℤ) : Prop :=
  0 ≤ pose.1 ∧ pose.1 < width ∧ 0 ≤ pose.2.1 ∧ pose.2.1 < length ∧
    0 ≤ pose.2.2 ∧ pose.2.2 ≤ 2 * Real.pi

/-- `MosOOState.object_poses` (state.py lines 60–64): the `(x, y)` poses of
all entries other than the robot's.  (A robot-typed entry carries a
3-component pose, which Python's tuple equality never equates with an
`(x, y)` pair, so only static-object entries can collide.) -/
def objectPoses (st : MosOOState) (robot_id : ℕ) : List (ℕ × (ℤ × ℤ)) :=
  st.object_states.filterMap fun pr =>
    match pr.2 with
    | .obj o => if pr.1 ≠ robot_id then some (pr.1, o.pose) else none
    | .robot _ => none

/-- `valid_pose` (transition_model.py lines 166–180): with collision checking
on, no object pose may occupy the candidate's `(x, y)` cell, and the pose
must be in boundary. -/
def valid_pose (pose : ℤ × ℤ × ℝ) (width length : ℤ)
    (objposes : List (ℕ × (ℤ × ℤ))) (check_collision : Bool) : Prop :=
  (check_collision = true → ∀ q ∈ objposes, (pose.1, pose.2.1) ≠ q.2) ∧
    in_boundary pose width length

/-- `RobotTransitionModel._if_move_by` (transition_model.py lines 91–119)
exactly as written.  A non-Motion action raises `ValueError` (line 94).  For
a Motion action the candidate pose is computed and then line 113 executes
`self.valid_pose((rx, ry, rth), ..., env_state=env_state, ...)`:
`RobotTransitionModel` has no attribute `valid_pose` (the predicate is a
module-level function), so attribute lookup raises `AttributeError` — and
`env_state` is an unbound name besides — before any validity check runs.
The `return robot_pose  # no change because change results in invalid pose`
branch (line 119) is unreachable. -/
noncomputable def if_move_by_code (robot_id : ℕ) (st : MosOOState) (a : Action) :
    Except PyError (ℤ × ℤ × ℝ) :=
  match a with
  | .motion mv =>
      match st.get robot_id with
      | some (.robot r) =>
          let _candidate := candidate_pose r.pose mv
          Except.error PyError.attributeError
      | _ => Except.error PyError.keyError
  | _ => Except.error PyError.valueError

open Classical in
/-- Modelled from the spec: `_if_move_by` with the line-113 slip repaired as
§4.4/§7 direct — the candidate pose is checked by the module-level
`valid_pose` against the passed-in state's object poses, and on failure the
robot pose is returned unchanged, silently.  `p` is the robot pose the
caller read from the state (the source re-reads the same entry on line 96);
the candidate arithmetic is `candidate_pose`, exactly as in the source. -/
noncomputable def if_move_by (dim : ℤ × ℤ) (robot_id : ℕ) (st : MosOOState)
    (p : ℤ × ℤ × ℝ) (mv : Motion) : ℤ × ℤ × ℝ :=
  let c := candidate_pose p mv
  if valid_pose c dim.1 dim.2 (objectPoses st robot_id) true then c else p

/-- `RobotTransitionModel` (transition_model.py lines 79–88): holds the
sensor (of which only `robot_id` is read by this model), the world dimension
`(width, length)` and `epsilon`.  `visible` is modelled from the spec: the
Find branch's visibility predicate
`self._gridworld.objects_within_view_range(robot_pose, object_poses, ...)`
belongs to the grid-world environment, which is not under `src/`; per §4.4
it maps the pre-action robot pose and the non-robot object poses to the
subset of object ids inside the view frustum. -/
structure RobotTransitionModel where
  robot_id : ℕ
  dim : ℤ × ℤ
  epsilon : ℚ
  visible : (ℤ × ℤ × ℝ) → List (ℕ × (ℤ × ℤ)) → Finset ℕ

/-- `RobotTransitionModel.argmax` (transition_model.py lines 128–158): read
the robot state out of the joint state (a missing or non-robot entry is a
`KeyError`), deep-copy it, reset `camera_direction` to `None`, then branch on
the action class: Motion moves via `_if_move_by`; Look first applies its
optional rotation via `_if_move_by` and then records `action.name` in
`camera_direction`; Find unions `objects_found` with the ids visible from the
*current* pose; any other value falls through every branch and the copy is
returned as is. -/
noncomputable def RobotTransitionModel.argmax (m : RobotTransitionModel)
    (st : MosOOState) (a : Action) : Except PyError RobotState :=
  match st.get m.robot_id with
  | some (.robot robot_state) =>
      let r1 : RobotState := { robot_state with camera_direction := none }
      match a with
      | .motion mv =>
          Except.ok { r1 with pose := if_move_by m.dim m.robot_id st robot_state.pose mv }
      | .look rot nm =>
          let r2 := match rot with
            | some mv =>
                { r1 with pose := if_move_by m.dim m.robot_id st robot_state.pose mv }
            | none => r1
          Except.ok { r2 with camera_direction := some nm }
      | .find =>
          let object_poses := objectPoses st m.robot_id
          Except.ok { r1 with objects_found :=
            r1.objects_found ∪ m.visible robot_state.pose object_poses }
      | .other => Except.ok r1
  | _ => Except.error PyError.keyError

/-- `RobotTransitionModel.sample` (transition_model.py lines 160–162):
`return self.argmax(state, action)`. -/
noncomputable def RobotTransitionModel.sample (m : RobotTransitionModel)
    (st : MosOOState) (a : Action) : Except PyError RobotState :=
  m.argmax st a

/-- `StaticObjectTransitionModel` (transition_model.py lines 58–62). -/
structure StaticObjectTransitionModel where
  objid : ℕ
  epsilon : ℚ

/-- `StaticObjectTransitionModel.argmax` (transition_model.py lines 74–76):
a deep copy of `state.object_states[self._objid]`, unchanged.  (`copy` is an
unbound name in the source file; modelled from the spec, §4.3/§9: a deep
copy of an immutable value is the value itself.)  A missing id raises
`KeyError`. -/
def StaticObjectTransitionModel.argmax (m : StaticObjectTransitionModel)
    (st : MosOOState) (a : Action) : Except PyError EntityState :=
  match st.get m.objid with
  | some e => Except.ok e
  | none => Except.error PyError.keyError

/-- `StaticObjectTransitionModel.sample` (transition_model.py lines 70–72):
`return self.argmax(state, action)`. -/
def StaticObjectTransitionModel.sample (m : StaticObjectTransitionModel)
    (st : MosOOState) (a : Action) : Except PyError EntityState :=
  m.argmax st a

/-- `StaticObjectTransitionModel.probability` (transition_model.py
lines 64–68): the reference entry is
`state.object_states[next_object_state['id']]` — looked up under the
*candidate's own* `id` attribute, not the model's `_objid`; a missing key
raises `KeyError`.  A candidate `ObjectState` never equals a `RobotState`
(their attribute dictionaries differ), so a robot entry scores `epsilon`. -/
def StaticObjectTransitionModel.probability (m : StaticObjectTransitionModel)
    (next_object_state : ObjectState) (st : MosOOState) (a : Action) :
    Except PyError ℚ :=
  match st.get next_object_state.id with
  | none => Except.error PyError.keyError
  | some (.robot _) => Except.ok m.epsilon
  | some (.obj o) =>
      if next_object_state ≠ o then Except.ok m.epsilon
      else Except.ok (1 - m.epsilon)

/-- `MosTransitionModel` (transition_model.py lines 31–47): one static model
per object id (all sharing `epsilon`) plus one robot model stored at the
robot id.  (Line 43 writes the robot model under the unbound name
`robot_id`; the intended key, `self._robot_id = sensor.robot_id`, is the
robot model's own id.) -/
structure MosTransitionModel where
  robot : RobotTransitionModel
  epsilon : ℚ

/-- `MosTransitionModel.sample` (transition_model.py lines 49–51).  The
per-entity dispatch of `pomdp_py.OOTransitionModel.sample` and the result
constructor are modelled from the spec (§4.5): the action is dispatched to
each entry's own model — the robot model at the robot id, that id's static
model elsewhere — and the next joint state is assembled from the per-entity
results, keyed by the same ids with the robot id preserved. -/
noncomputable def MosTransitionModel.sample (m : MosTransitionModel)
    (st : MosOOState) (a : Action) : Except PyError MosOOState := do
  let entries ← st.object_states.mapM fun pr =>
    if pr.1 = m.robot.robot_id then do
      let r ← m.robot.sample st a
      pure (pr.1, EntityState.robot r)
    else do
      let e ← (StaticObjectTransitionModel.mk pr.1 m.epsilon).sample st a
      pure (pr.1, e)
  pure ⟨entries⟩

/-- `MosTransitionModel.argmax` (transition_model.py lines 53–55): identical
to `sample` except that each per-entity model's `argmax` is invoked. -/
noncomputable def MosTransitionModel.argmax (m : MosTransitionModel)
    (st : MosOOState) (a : Action) : Except PyError MosOOState := do
  let entries ← st.object_states.mapM fun pr =>
    if pr.1 = m.robot.robot_id then do
      let r ← m.robot.argmax st a
      pure (pr.1, EntityState.robot r)
    else do
      let e ← (StaticObjectTransitionModel.mk pr.1 m.epsilon).argmax st a
      pure (pr.1, e)
  pure ⟨entries⟩

/-- The camera direction each action type leaves behind: the name of a Look
action, `None` for everything else. -/
def camDirOf : Action → Option String
  | .look _ nm => some nm
  | _ => none

/-! ## Claims about the transition models -/

theorem pymod_pi_div_two : pymod (Real.pi / 2) (2 * Real.pi) = Real.pi / 2 := by
  have h4 : Real.pi / 2 / (2 * Real.pi) = 1 / 4 := by
    field_simp
    ring
  have hf : ⌊(1 : ℝ) / 4⌋ = 0 := by
    norm_num [Int.floor_eq_zero_iff, Set.mem_Ico]
  rw [pymod, h4, hf]
  norm_num

/-- **C2.** The claim says the `vw` candidate pose is
`θ' = (θ + angle) mod 2π`, `x' = round(x + forward·cos θ')`,
`y' = round(y + forward·sin θ')`.  The code computes *both* coordinates from
the cosine (transition_model.py line 110 repeats the line-109 cosine instead
of using the sine).  At pose `(0, 0, 0)` with `forward = 1`,
`angle = π/2`: the code's candidate is `(0, 0, π/2)` while the claimed
formula gives `(0, 1, π/2)`. -/
theorem C2_vw_scheme_y_uses_cosine :
    candidate_pose (0, 0, 0) (Motion.vw 1 (Real.pi / 2)) = (0, 0, Real.pi / 2) ∧
      candidate_pose_vw_spec (0, 0, 0) 1 (Real.pi / 2) = (0, 1, Real.pi / 2) := by
  have hmod : pymod ((0 : ℝ) + Real.pi / 2) (2 * Real.pi) = Real.pi / 2 := by
    rw [zero_add, pymod_pi_div_two]
  constructor
  · simp only [candidate_pose, Prod.mk.injEq]
    refine ⟨?_, ?_, by rw [hmod]⟩ <;>
      · rw [zero_add, Real.cos_pi_div_two]
        norm_num
  · simp only [candidate_pose_vw_spec, hmod, Prod.mk.injEq]
    refine ⟨?_, ?_, trivial⟩
    · rw [Real.cos_pi_div_two]
      norm_num
    · rw [Real.sin_pi_div_two]
      norm_num

/-- A robot at the origin of a 5×5 world with one object at `(3, 3)`. -/
def st3 : MosOOState :=
  ⟨[(7, EntityState.robot ⟨7, (0, 0, 0), ∅, none⟩),
    (1, EntityState.obj ⟨1, "obj", (3, 3)⟩)]⟩

/-- **C3.** The claim says an out-of-bounds or colliding candidate leaves the
robot pose unchanged with no exception.  As written, `_if_move_by` raises for
*every* Motion action — line 113 looks up the nonexistent attribute
`self.valid_pose` and references the unbound name `env_state` — so the
silent-failure branch is unreachable (first conjunct, at the motion whose
candidate `(-1, 0, 0)` is out of bounds).  The remaining conjuncts check the
intended dynamics on the repaired model: the out-of-bounds candidate
`(-1, 0, 0)` and the colliding candidate `(3, 3, 0)` (the cell of object 1)
both leave the robot pose at `(0, 0, 0)`. -/
theorem C3_invalid_motion_keeps_pose :
    if_move_by_code 7 st3 (Action.motion (Motion.xy (-1) 0 0))
        = Except.error PyError.attributeError ∧
      if_move_by (5, 5) 7 st3 (0, 0, 0) (Motion.xy (-1) 0 0) = (0, 0, 0) ∧
      if_move_by (5, 5) 7 st3 (0, 0, 0) (Motion.xy 3 3 0) = (0, 0, 0) := by
  refine ⟨rfl, ?_, ?_⟩
  · have hn : ¬ valid_pose (candidate_pose (0, 0, 0) (Motion.xy (-1) 0 0))
        5 5 (objectPoses st3 7) true := by
      intro h
      have hb := h.2.1
      norm_num [candidate_pose] at hb
    simp only [if_move_by]
    rw [if_neg hn]
  · have hn : ¬ valid_pose (candidate_pose (0, 0, 0) (Motion.xy 3 3 0))
        5 5 (objectPoses st3 7) true := by
      intro h
      have hc := h.1 rfl (1, (3, 3)) (by simp [objectPoses, st3])
      simp [candidate_pose] at hc
    simp only [if_move_by]
    rw [if_neg hn]

/-- A robot transition model for robot id 7 in a 5×5 world with the default
epsilon and an empty view frustum. -/
def m5 : RobotTransitionModel :=
  ⟨7, (5, 5), 1 / 1000000000, fun _ _ => ∅⟩

/-- A joint state holding only the robot, at the origin. -/
def st5 : MosOOState := ⟨[(7, EntityState.robot ⟨7, (0, 0, 0), ∅, none⟩)]⟩

/-- **C5 (counterexample).** The claim says an action that is not one of
{Motion, Look, Find} is rejected with an error and a next state is never
returned.  At the concrete state `st5`, a value of none of the three action
classes falls through every `isinstance` branch of `argmax`
(transition_model.py lines 138–148) and the deep-copied robot state, with
`camera_direction` cleared, is returned — no error is raised. -/
theorem C5_unknown_action_not_rejected :
    m5.argmax st5 Action.other = Except.ok ⟨7, (0, 0, 0), ∅, none⟩ := rfl

/-- **C5 (amended).** For every model and every state whose robot entry
exists, an action of none of the three classes is accepted silently:
`argmax` returns the robot state unchanged except that `camera_direction` is
reset to `None`.  (Only `_if_move_by` raises `ValueError` for a non-Motion
action, and `argmax` never routes a non-Motion action to it.) -/
theorem C5_unknown_action_returns_reset_copy (m : RobotTransitionModel)
    (st : MosOOState) (r : RobotState)
    (h : st.get m.robot_id = some (EntityState.robot r)) :
    m.argmax st Action.other = Except.ok { r with camera_direction := none } := by
  simp [RobotTransitionModel.argmax, h]

/-- A robot mid-episode: away from the origin, one object found, camera set. -/
def st5b : MosOOState :=
  ⟨[(7, EntityState.robot ⟨7, (1, 2, 0), {4}, some "look"⟩)]⟩

theorem C5_unknown_action_returns_reset_copy_witness :
    m5.argmax st5b Action.other
      = Except.ok { (⟨7, (1, 2, 0), {4}, some "look"⟩ : RobotState) with
          camera_direction := none } :=
  C5_unknown_action_returns_reset_copy m5 st5b ⟨7, (1, 2, 0), {4}, some "look"⟩ rfl

/-- **C6.** For every state and every action, the `objects_found` of the
robot state returned by `argmax` (and hence by `sample`, which delegates to
it) contains the pre-action `objects_found`: Motion, Look and unknown
actions copy it unchanged, and Find replaces it by its union with the
visible set (transition_model.py line 157). -/
theorem C6_objects_found_monotone (m : RobotTransitionModel) (st : MosOOState)
    (a : Action) (r0 r1 : RobotState)
    (h0 : st.get m.robot_id = some (EntityState.robot r0))
    (h1 : m.argmax st a = Except.ok r1) :
    r0.objects_found ⊆ r1.objects_found := by
  cases a with
  | motion mv =>
      simp [RobotTransitionModel.argmax, h0] at h1
      subst h1
      exact Finset.Subset.refl _
  | look rot nm =>
      cases rot <;>
        · simp [RobotTransitionModel.argmax, h0] at h1
          subst h1
          exact Finset.Subset.refl _
  | find =>
      simp [RobotTransitionModel.argmax, h0] at h1
      subst h1
      exact Finset.subset_union_left
  | other =>
      simp [RobotTransitionModel.argmax, h0] at h1
      subst h1
      exact Finset.Subset.refl _

/-- A robot that has found object 1, with a view frustum containing id 3. -/
def m6 : RobotTransitionModel :=
  ⟨7, (5, 5), 1 / 1000000000, fun _ _ => {3}⟩

def st6 : MosOOState := ⟨[(7, EntityState.robot ⟨7, (0, 0, 0), {1}, none⟩)]⟩

theorem C6_objects_found_monotone_witness :
    (RobotState.mk 7 (0, 0, 0) {1} none).objects_found
      ⊆ (RobotState.mk 7 (0, 0, 0) (({1} : Finset ℕ) ∪ {3}) none).objects_found :=
  C6_objects_found_monotone m6 st6 Action.find
    ⟨7, (0, 0, 0), {1}, none⟩ ⟨7, (0, 0, 0), ({1} : Finset ℕ) ∪ {3}, none⟩ rfl rfl

/-- **C7.** Whenever `argmax` returns a robot state, its `camera_direction`
is `None` unless the action was a Look action, in which case it is that
action's name: the copy's `camera_direction` is reset to `None` first
(transition_model.py line 136) and only the Look branch re-sets it
(line 146). -/
theorem C7_camera_direction_reset (m : RobotTransitionModel) (st : MosOOState)
    (a : Action) (r1 : RobotState)
    (h : m.argmax st a = Except.ok r1) :
    r1.camera_direction = camDirOf a := by
  rcases hg : st.get m.robot_id with - | e
  · simp [RobotTransitionModel.argmax, hg] at h
  · cases e with
    | obj o => simp [RobotTransitionModel.argmax, hg] at h
    | robot r =>
        cases a with
        | motion mv =>
            simp [RobotTransitionModel.argmax, hg] at h
            subst h
            rfl
        | look rot nm =>
            cases rot <;>
              · simp [RobotTransitionModel.argmax, hg] at h
                subst h
                rfl
        | find =>
            simp [RobotTransitionModel.argmax, hg] at h
            subst h
            rfl
        | other =>
            simp [RobotTransitionModel.argmax, hg] at h
            subst h
            rfl

/-- A robot whose camera is currently set, to witness the reset. -/
def st7 : MosOOState := ⟨[(7, EntityState.robot ⟨7, (1, 1, 0), ∅, some "x"⟩)]⟩

theorem C7_camera_direction_reset_witness :
    (RobotState.mk 7 (1, 1, 0) ∅ (some "look")).camera_direction
      = camDirOf (Action.look none "look") :=
  C7_camera_direction_reset m5 st7 (Action.look none "look")
    ⟨7, (1, 1, 0), ∅, some "look"⟩ rfl

/-- **C8.** `sample = argmax` for all three models: the static and robot
models' `sample` bodies are `return self.argmax(state, action)`
(transition_model.py lines 70–72 and 160–162), and the composite model's
per-entity dispatches therefore coincide entry by entry. -/
theorem C8_sample_eq_argmax :
    (∀ (m : StaticObjectTransitionModel) (st : MosOOState) (a : Action),
        m.sample st a = m.argmax st a) ∧
      (∀ (m : RobotTransitionModel) (st : MosOOState) (a : Action),
        m.sample st a = m.argmax st a) ∧
      (∀ (m : MosTransitionModel) (st : MosOOState) (a : Action),
        m.sample st a = m.argmax st a) :=
  ⟨fun _ _ _ => rfl, fun _ _ _ => rfl, fun _ _ _ => rfl⟩

/-- **C10.** `StaticObjectTransitionModel.probability` scores the candidate
against the state entry under the *candidate's own* id: whenever
`state.object_states[cand.id]` is an object state `o`, the score is `1 − ε`
exactly when the candidate equals `o` and `ε` otherwise — for every model,
regardless of its configured `objid` (second conjunct: two models differing
only in `objid` score every candidate identically). -/
theorem C10_probability_uses_candidate_id (m : StaticObjectTransitionModel)
    (st : MosOOState) (a : Action) (cand o : ObjectState) (i j : ℕ) (ε : ℚ)
    (h : st.get cand.id = some (EntityState.obj o)) :
    m.probability cand st a
        = Except.ok (if cand = o then 1 - m.epsilon else m.epsilon) ∧
      StaticObjectTransitionModel.probability ⟨i, ε⟩ cand st a
        = StaticObjectTransitionModel.probability ⟨j, ε⟩ cand st a := by
  constructor
  · by_cases hc : cand = o
    · subst hc
      simp [StaticObjectTransitionModel.probability, h]
    · simp [StaticObjectTransitionModel.probability, h, hc]
  · rfl

/-- An object state stored under its own id 3. -/
def o10 : ObjectState := ⟨3, "box", (2, 2)⟩

def st10 : MosOOState := ⟨[(3, EntityState.obj o10)]⟩

theorem C10_probability_uses_candidate_id_witness :
    (StaticObjectTransitionModel.mk 5 (1 / 1000000000)).probability o10 st10 Action.find
        = Except.ok (if o10 = o10
            then 1 - (StaticObjectTransitionModel.mk 5 (1 / 1000000000)).epsilon
            else (StaticObjectTransitionModel.mk 5 (1 / 1000000000)).epsilon) ∧
      StaticObjectTransitionModel.probability ⟨0, 1 / 2⟩ o10 st10 Action.find
        = StaticObjectTransitionModel.probability ⟨1, 1 / 2⟩ o10 st10 Action.find :=
  C10_probability_uses_candidate_id ⟨5, 1 / 1000000000⟩ st10 Action.find
    o10 o10 0 1 (1 / 2) rfl

end MosCore
